import Mathlib

/-!
Verification of the codesense-ai response-recovery pipeline and analyzer.

The definitions below are a shallow embedding of the Python sources:
  * `src/codesense/llm/client.py`   (`GroqClient._parse_response`, `GroqClient.__init__`)
  * `src/codesense/llm/prompts.py`  (`get_review_prompt`)
  * `src/codesense/core/analyzer.py` (`CodeAnalyzer._parse_issue`, `review_code`,
     `_calculate_score`)
  * `src/codesense/core/detector.py` (`detect_language`)
  * `src/codesense/models/__init__.py` (`Issue`, `FileReview`, `ReviewResult`)
  * `src/codesense/utils/config.py` (`Settings`)

Python strings are modelled as `List Char` / `String`, dicts as association
lists, machine integers as `Int`/`Nat`, and fallible code as `Except`.
-/

/-! ### Characters that the repository's regexes single out -/

def backtickChar : Char := Char.ofNat 96

def lbraceChar : Char := Char.ofNat 123

def rbraceChar : Char := Char.ofNat 125

def lbrackChar : Char := Char.ofNat 91

def rbrackChar : Char := Char.ofNat 93

def quoteChar : Char := Char.ofNat 34

def backslashChar : Char := Char.ofNat 92

/-- Python's whitespace class (`\s` in `re`, and the default `str.strip` set),
restricted to its ASCII members: space, tab, newline, carriage return,
vertical tab, form feed. -/
def pyWsB (c : Char) : Bool :=
  c = ' ' || c = '\t' || c = '\n' || c = '\r' || c = Char.ofNat 11 || c = Char.ofNat 12

/-- Python `str.strip()`: drop leading and trailing whitespace. -/
def pyStrip (cs : List Char) : List Char :=
  ((cs.dropWhile pyWsB).reverse.dropWhile pyWsB).reverse

/-! ### The fence-extraction regex of `llm/client.py` line 22

`re.search` with pattern: one backtick, an optional literal `json` tag, greedy
whitespace, a lazy any-character group, greedy whitespace, one backtick.
A match starting at a backtick succeeds exactly when another backtick occurs
later, so `re.search` matches iff the text holds at least two backticks, and
the match starts at the first one.  The lazy group then ends at the next
backtick, with the whitespace immediately before it going to the second
`\s*`. -/

def jsonTagChars : List Char := ['j', 's', 'o', 'n']

def dropTrailingWs (cs : List Char) : List Char :=
  (cs.reverse.dropWhile pyWsB).reverse

def fenceGroup (cs : List Char) : Option (List Char) :=
  if 2 ≤ cs.count backtickChar then
    let afterTick := (cs.dropWhile (fun c => !(c = backtickChar))).drop 1
    let afterTag := if jsonTagChars.isPrefixOf afterTick then afterTick.drop 4 else afterTick
    let groupStart := afterTag.dropWhile pyWsB
    some (dropTrailingWs (groupStart.takeWhile (fun c => !(c = backtickChar))))
  else none

/-! ### The trailing-comma repairs of `llm/client.py` lines 26-27

`re.sub(r',\s*X', 'X', content)` for `X` one of the two closing brackets:
scanning left to right, a comma followed by (maximal) whitespace and then the
closing bracket is replaced by the bare closing bracket. -/

def subTrailingCommaAux (close : Char) : Nat → List Char → List Char
  | _, [] => []
  | 0, cs => cs
  | fuel + 1, c :: rest =>
    if c = ',' then
      match rest.dropWhile pyWsB with
      | d :: r3 =>
        if d = close then close :: subTrailingCommaAux close fuel r3
        else c :: subTrailingCommaAux close fuel rest
      | [] => c :: subTrailingCommaAux close fuel rest
    else c :: subTrailingCommaAux close fuel rest

def subTrailingComma (close : Char) (cs : List Char) : List Char :=
  subTrailingCommaAux close cs.length cs

/-! ### Parsed JSON values

`json.loads` returns Python dicts, lists, strings, ints, floats, bools and
`None`.  Non-integer numeric literals (and the `NaN`/`Infinity` extensions)
are kept as their lexeme in `fnum`; no claim inspects a float value. -/

inductive Json where
  | null
  | bool (b : Bool)
  | num (n : Int)
  | fnum (lexeme : String)
  | str (s : String)
  | arr (elems : List Json)
  | obj (fields : List (String × Json))

/-- Python dict lookup (`d[k]` / `d.get(k)`); with duplicate assignments the
last one wins, as in a dict built by repeated insertion. -/
def pyGet (fields : List (String × Json)) (k : String) : Option Json :=
  fields.foldl (fun acc p => if p.1 = k then some p.2 else acc) none

/-- Dict insertion used while parsing an object literal: a repeated key
overwrites the value but keeps the first insertion position. -/
def objInsert (fields : List (String × Json)) (k : String) (v : Json) :
    List (String × Json) :=
  if fields.any (fun p => p.1 = k) then
    fields.map (fun p => if p.1 = k then (k, v) else p)
  else fields ++ [(k, v)]

/-! ### `json.loads`

A model of CPython's JSON decoder: whitespace is `[ \t\n\r]`, a value is an
object, array, string, number, literal, or one of the `NaN`/`Infinity`
extensions, and anything left over after the first value is `Extra data`.
Errors carry CPython's message together with the length of the remaining
input at the error point, from which `renderErr` reconstructs
`str(JSONDecodeError)`: `msg: line L column C (char P)`. -/

def jsonWsB (c : Char) : Bool :=
  c = ' ' || c = '\t' || c = '\n' || c = '\r'

def lastNlIdx (cs : List Char) : Int :=
  (cs.foldl (fun p c => (p.1 + 1, if c = '\n' then p.1 else p.2)) ((0 : Int), (-1 : Int))).2

def renderErr (doc : List Char) (pos : Nat) (msg : String) : String :=
  let pre := doc.take pos
  let line := 1 + pre.count '\n'
  let col : Int := (pos : Int) - lastNlIdx pre
  msg ++ ": line " ++ toString line ++ " column " ++ toString col ++
    " (char " ++ toString pos ++ ")"

def hexVal (c : Char) : Option Nat :=
  if '0' ≤ c && c ≤ '9' then some (c.toNat - 48)
  else if 'a' ≤ c && c ≤ 'f' then some (c.toNat - 97 + 10)
  else if 'A' ≤ c && c ≤ 'F' then some (c.toNat - 65 + 10)
  else none

def hex4 (a b c d : Char) : Option Nat :=
  match hexVal a, hexVal b, hexVal c, hexVal d with
  | some va, some vb, some vc, some vd => some (((va * 16 + vb) * 16 + vc) * 16 + vd)
  | _, _, _, _ => none

def unescapeChar (e : Char) : Option Char :=
  if e = quoteChar then some quoteChar
  else if e = backslashChar then some backslashChar
  else if e = '/' then some '/'
  else if e = 'b' then some (Char.ofNat 8)
  else if e = 'f' then some (Char.ofNat 12)
  else if e = 'n' then some '\n'
  else if e = 'r' then some '\r'
  else if e = 't' then some '\t'
  else none

def parseStrAux (acc : List Char) : List Char → Except (String × Nat) (String × List Char)
  | [] => .error ("Unterminated string starting at", 0)
  | c :: rest =>
    if c = quoteChar then .ok (String.mk acc.reverse, rest)
    else if c = backslashChar then
      match rest with
      | [] => .error ("Unterminated string starting at", 0)
      | e :: r2 =>
        if e = 'u' then
          match r2 with
          | a :: b :: c2 :: d :: r3 =>
            match hex4 a b c2 d with
            | some n => parseStrAux (Char.ofNat n :: acc) r3
            | none => .error ("Invalid \x5cuXXXX escape", r3.length)
          | _ => .error ("Invalid \x5cuXXXX escape", r2.length)
        else
          match unescapeChar e with
          | some ch => parseStrAux (ch :: acc) r2
          | none => .error ("Invalid \x5cescape", r2.length)
    else if c.toNat < 32 then .error ("Invalid control character at", rest.length + 1)
    else parseStrAux (c :: acc) rest

def digitsToNat (ds : List Char) : Nat :=
  ds.foldl (fun a c => a * 10 + (c.toNat - 48)) 0

def tryNumber (cs : List Char) : Option (Json × List Char) :=
  let (neg, r1) := match cs with
    | c :: r => if c = '-' then (true, r) else (false, cs)
    | [] => (false, cs)
  match r1 with
  | [] => none
  | d :: r2 =>
    if !d.isDigit then none
    else
      let (intDs, rInt) :=
        if d = '0' then ([d], r2)
        else (d :: r2.takeWhile Char.isDigit, r2.dropWhile Char.isDigit)
      let (fracDs, rFrac) := match rInt with
        | p :: rf =>
          if p = '.' && !(rf.takeWhile Char.isDigit).isEmpty then
            (p :: rf.takeWhile Char.isDigit, rf.dropWhile Char.isDigit)
          else ([], rInt)
        | [] => ([], rInt)
      let (expDs, rExp) := match rFrac with
        | e :: re =>
          if e = 'e' || e = 'E' then
            let (sgn, re2) := match re with
              | s :: rs => if s = '+' || s = '-' then ([s], rs) else (([] : List Char), re)
              | [] => ([], re)
            if !(re2.takeWhile Char.isDigit).isEmpty then
              (e :: (sgn ++ re2.takeWhile Char.isDigit), re2.dropWhile Char.isDigit)
            else (([] : List Char), rFrac)
          else ([], rFrac)
        | [] => ([], rFrac)
      if fracDs.isEmpty && expDs.isEmpty then
        let n : Int := Int.ofNat (digitsToNat intDs)
        some (Json.num (if neg then -n else n), rInt)
      else
        some (Json.fnum (String.mk ((if neg then ['-'] else []) ++ intDs ++ fracDs ++ expDs)), rExp)

/-- The scanner's mode: a value, the inside of an object right after `\x7b`,
the member loop right after a property-name opening quote, the inside of an
array right after `\x5b`, or the element loop of an array. -/
inductive ScanMode where
  | value
  | objStart
  | members (acc : List (String × Json))
  | arrStart
  | arrBody (acc : List Json)

def jsonScan (fuel : Nat) (mode : ScanMode) (rest : List Char) :
    Except (String × Nat) (Json × List Char) :=
  match fuel with
  | 0 => .error ("recursion budget exhausted", rest.length)
  | fuel + 1 =>
    match mode with
    | .value =>
      match rest with
      | [] => .error ("Expecting value", 0)
      | c :: r =>
        if c = quoteChar then
          match parseStrAux [] r with
          | .error e => .error e
          | .ok (s, r2) => .ok (Json.str s, r2)
        else if c = lbraceChar then jsonScan fuel .objStart r
        else if c = lbrackChar then jsonScan fuel .arrStart r
        else if c = 'n' then
          if ['u', 'l', 'l'].isPrefixOf r then .ok (Json.null, r.drop 3)
          else .error ("Expecting value", r.length + 1)
        else if c = 't' then
          if ['r', 'u', 'e'].isPrefixOf r then .ok (Json.bool true, r.drop 3)
          else .error ("Expecting value", r.length + 1)
        else if c = 'f' then
          if ['a', 'l', 's', 'e'].isPrefixOf r then .ok (Json.bool false, r.drop 4)
          else .error ("Expecting value", r.length + 1)
        else
          match tryNumber (c :: r) with
          | some (v, r2) => .ok (v, r2)
          | none =>
            if c = 'N' && ['a', 'N'].isPrefixOf r then .ok (Json.fnum "NaN", r.drop 2)
            else if c = 'I' && ['n', 'f', 'i', 'n', 'i', 't', 'y'].isPrefixOf r then
              .ok (Json.fnum "Infinity", r.drop 7)
            else if c = '-' && ['I', 'n', 'f', 'i', 'n', 'i', 't', 'y'].isPrefixOf r then
              .ok (Json.fnum "-Infinity", r.drop 8)
            else .error ("Expecting value", r.length + 1)
    | .objStart =>
      match rest.dropWhile jsonWsB with
      | [] => .error ("Expecting property name enclosed in double quotes", 0)
      | c :: r2 =>
        if c = rbraceChar then .ok (Json.obj [], r2)
        else if c = quoteChar then jsonScan fuel (.members []) r2
        else .error ("Expecting property name enclosed in double quotes", r2.length + 1)
    | .members acc =>
      match parseStrAux [] rest with
      | .error e => .error e
      | .ok (key, r1) =>
        match r1.dropWhile jsonWsB with
        | c :: r3 =>
          if c = ':' then
            match jsonScan fuel .value (r3.dropWhile jsonWsB) with
            | .error e => .error e
            | .ok (v, r5) =>
              let acc2 := objInsert acc key v
              match r5.dropWhile jsonWsB with
              | d :: r7 =>
                if d = rbraceChar then .ok (Json.obj acc2, r7)
                else if d = ',' then
                  match r7.dropWhile jsonWsB with
                  | e2 :: r9 =>
                    if e2 = quoteChar then jsonScan fuel (.members acc2) r9
                    else .error
                      ("Expecting property name enclosed in double quotes", r9.length + 1)
                  | [] => .error ("Expecting property name enclosed in double quotes", 0)
                else .error ("Expecting \x27,\x27 delimiter", r7.length + 1)
              | [] => .error ("Expecting \x27,\x27 delimiter", 0)
          else .error ("Expecting \x27:\x27 delimiter", r3.length + 1)
        | [] => .error ("Expecting \x27:\x27 delimiter", 0)
    | .arrStart =>
      match rest.dropWhile jsonWsB with
      | [] => .error ("Expecting value", 0)
      | c :: r2 =>
        if c = rbrackChar then .ok (Json.arr [], r2)
        else jsonScan fuel (.arrBody []) (rest.dropWhile jsonWsB)
    | .arrBody acc =>
      match jsonScan fuel .value rest with
      | .error e => .error e
      | .ok (v, r) =>
        match r.dropWhile jsonWsB with
        | c :: r3 =>
          if c = rbrackChar then .ok (Json.arr (v :: acc).reverse, r3)
          else if c = ',' then jsonScan fuel (.arrBody (v :: acc)) (r3.dropWhile jsonWsB)
          else .error ("Expecting \x27,\x27 delimiter", r3.length + 1)
        | [] => .error ("Expecting \x27,\x27 delimiter", 0)

def jsonLoadsList (cs : List Char) : Except String Json :=
  match jsonScan (cs.length * 4 + 15).succ .value (cs.dropWhile jsonWsB) with
  | .error (m, rem) => .error (renderErr cs (cs.length - rem) m)
  | .ok (v, rest) =>
    match rest.dropWhile jsonWsB with
    | [] => .ok v
    | _ :: _ => .error (renderErr cs (cs.length - (rest.dropWhile jsonWsB).length) "Extra data")

/-! ### `GroqClient._parse_response` (`llm/client.py` lines 20-34) -/

/-- The error record built in the `except` branch (lines 30-34): a dict with a
fixed summary, an empty issue list, and `str(e)` under the key `error`. -/
def errorRecord (msg : String) : Json :=
  Json.obj [("summary", Json.str "Analysis completed"), ("issues", Json.arr []),
    ("error", Json.str msg)]

/-- The candidate text handed to `json.loads`: fence extraction (line 22-24),
`strip` (line 25), then the two trailing-comma repairs (lines 26-27). -/
def candidateOf (content : String) : List Char :=
  let cs := match fenceGroup content.data with
    | some g => g
    | none => content.data
  subTrailingComma rbrackChar (subTrailingComma rbraceChar (pyStrip cs))

/-- `GroqClient._parse_response` of `llm/client.py`: extract, repair, parse;
on a parse failure return the error record instead of raising. -/
def parseResponse (content : String) : Json :=
  match jsonLoadsList (candidateOf content) with
  | .ok j => j
  | .error m => errorRecord m


/-! ### Data model (`models/__init__.py`) -/

inductive Severity where
  | critical
  | high
  | medium
  | low
  | info
deriving DecidableEq

/-- `Severity(s)`: the enum constructor, succeeding only on an exact value. -/
def Severity.fromString? (s : String) : Option Severity :=
  if s = "critical" then some .critical
  else if s = "high" then some .high
  else if s = "medium" then some .medium
  else if s = "low" then some .low
  else if s = "info" then some .info
  else none

inductive IssueCategory where
  | security
  | bug
  | performance
  | style
  | best_practice
  | documentation
deriving DecidableEq

/-- `IssueCategory(s)`: the enum constructor, succeeding only on an exact value. -/
def IssueCategory.fromString? (s : String) : Option IssueCategory :=
  if s = "security" then some .security
  else if s = "bug" then some .bug
  else if s = "performance" then some .performance
  else if s = "style" then some .style
  else if s = "best_practice" then some .best_practice
  else if s = "documentation" then some .documentation
  else none

structure Issue where
  title : String
  description : String
  severity : Severity
  category : IssueCategory
  line_start : Option Int
  line_end : Option Int
  code_snippet : Option String
  suggestion : Option String
  suggested_code : Option String

structure FileReview where
  filename : String
  language : String
  lines_of_code : Nat
  issues : List Issue
  summary : Option String

structure ReviewResult where
  id : String
  files : List FileReview
  total_issues : Nat
  review_time_ms : Nat
  overall_summary : Option String
  overall_score : Option Int

/-- `ReviewResult(id=..., total_issues=0)` as constructed in `review_multiple`:
empty file list, zero counters, no summary or score yet. -/
def initReviewResult (idStr : String) : ReviewResult :=
  { id := idStr, files := [], total_issues := 0, review_time_ms := 0,
    overall_summary := none, overall_score := none }

/-- `ReviewResult.add_file_review`: append the review and bump the running
issue total by `len(file_review.issues)`. -/
def addFileReview (r : ReviewResult) (fr : FileReview) : ReviewResult :=
  { r with files := r.files ++ [fr], total_issues := r.total_issues + fr.issues.length }

def buildResult (idStr : String) (frs : List FileReview) : ReviewResult :=
  frs.foldl addFileReview (initReviewResult idStr)

/-- The per-severity counters dict `\x7bs.value: 0 for s in Severity\x7d`. -/
structure Breakdown where
  critical : Nat
  high : Nat
  medium : Nat
  low : Nat
  info : Nat

def zeroBreakdown : Breakdown := ⟨0, 0, 0, 0, 0⟩

def bumpBreakdown (b : Breakdown) : Severity → Breakdown
  | .critical => { b with critical := b.critical + 1 }
  | .high => { b with high := b.high + 1 }
  | .medium => { b with medium := b.medium + 1 }
  | .low => { b with low := b.low + 1 }
  | .info => { b with info := b.info + 1 }

/-- `ReviewResult.severity_breakdown`: count issues per severity over all
file reviews. -/
def severityBreakdown (r : ReviewResult) : Breakdown :=
  r.files.foldl (fun acc f => f.issues.foldl (fun a i => bumpBreakdown a i.severity) acc)
    zeroBreakdown

def breakdownTotal (b : Breakdown) : Nat :=
  b.critical + b.high + b.medium + b.low + b.info

/-! ### `CodeAnalyzer._calculate_score` (`analyzer.py` lines 253-272) -/

def penaltyOf (b : Breakdown) : Nat :=
  b.critical * 25 + b.high * 15 + b.medium * 8 + b.low * 3 + b.info * 1

/-- Quality score: 100 when no issues; otherwise `max(0, 100 - penalty)`. -/
def calculateScore (r : ReviewResult) : Int :=
  if r.total_issues = 0 then 100
  else max 0 (100 - (penaltyOf (severityBreakdown r) : Int))

/-! ### `detect_language` (`core/detector.py`) -/

def EXTENSION_MAP : List (String × String) :=
  [(".py", "python"), (".js", "javascript"), (".ts", "typescript"),
   (".java", "java"), (".go", "go"), (".rs", "rust"), (".rb", "ruby"),
   (".php", "php"), (".c", "c"), (".cpp", "cpp"), (".cs", "csharp")]

def hasSubstrAux (needle : List Char) : List Char → Bool
  | [] => needle.isEmpty
  | c :: t => needle.isPrefixOf (c :: t) || hasSubstrAux needle t

/-- Python's `needle in hay` on strings. -/
def hasSubstr (hay needle : String) : Bool :=
  hasSubstrAux needle.data hay.data

def detectLanguage (code : String) (filename : Option String) : String :=
  let fnMatch : Option String := match filename with
    | some f =>
      if f = "" then none
      else match EXTENSION_MAP.find? (fun p => p.1.data.isSuffixOf f.data) with
        | some p => some p.2
        | none => none
    | none => none
  match fnMatch with
  | some lang => lang
  | none =>
    if code = "" then "text"
    else if hasSubstr code "def " || hasSubstr code "import " then "python"
    else if hasSubstr code "const " || hasSubstr code "function " then "javascript"
    else "text"

/-! ### `len(code.splitlines())` -/

def isLineBreak (c : Char) : Bool :=
  c = '\n' || c = '\r' || c = Char.ofNat 11 || c = Char.ofNat 12 || c = Char.ofNat 28 ||
    c = Char.ofNat 29 || c = Char.ofNat 30 || c = Char.ofNat 133 || c = Char.ofNat 8232 ||
    c = Char.ofNat 8233

def afterLine : List Char → List Char
  | [] => []
  | c :: rest =>
    if c = '\r' then
      match rest with
      | d :: r2 => if d = '\n' then r2 else rest
      | [] => []
    else if isLineBreak c then rest
    else afterLine rest

def slCountAux : Nat → List Char → Nat
  | _, [] => 0
  | 0, _ => 0
  | fuel + 1, cs => 1 + slCountAux fuel (afterLine cs)

/-- `len(s.splitlines())`. -/
def slCount (s : String) : Nat :=
  slCountAux s.data.length s.data

/-! ### Python `str()` / `repr()` of parsed JSON values -/

def aposChar : Char := Char.ofNat 39

def hexDigitChar (n : Nat) : Char :=
  if n < 10 then Char.ofNat (48 + n) else Char.ofNat (97 + n - 10)

def pyReprStrChar (q : Char) (c : Char) : List Char :=
  if c = backslashChar then [backslashChar, backslashChar]
  else if c = q then [backslashChar, q]
  else if c = '\n' then [backslashChar, 'n']
  else if c = '\r' then [backslashChar, 'r']
  else if c = '\t' then [backslashChar, 't']
  else if c.toNat < 32 || c.toNat = 127 then
    [backslashChar, 'x', hexDigitChar (c.toNat / 16 % 16), hexDigitChar (c.toNat % 16)]
  else [c]

/-- `repr` of a Python `str`: single-quoted unless the text holds a single
quote and no double quote. -/
def pyReprStr (s : String) : String :=
  let q := if s.data.contains aposChar && !(s.data.contains quoteChar) then quoteChar
    else aposChar
  String.mk ((q :: (s.data.map (pyReprStrChar q)).flatten) ++ [q])

mutual

def pyRepr : Json → String
  | .null => "None"
  | .bool true => "True"
  | .bool false => "False"
  | .num n => toString n
  | .fnum lex => lex
  | .str s => pyReprStr s
  | .arr es => "[" ++ pyReprArr es ++ "]"
  | .obj ms => "\x7b" ++ pyReprObj ms ++ "\x7d"

def pyReprArr : List Json → String
  | [] => ""
  | [e] => pyRepr e
  | e :: es => pyRepr e ++ ", " ++ pyReprArr es

def pyReprObj : List (String × Json) → String
  | [] => ""
  | [(k, v)] => pyReprStr k ++ ": " ++ pyRepr v
  | (k, v) :: ms => pyReprStr k ++ ": " ++ pyRepr v ++ ", " ++ pyReprObj ms

end

/-- Python `str()` applied to a parsed JSON value (as in an f-string). -/
def pyStr (v : Json) : String :=
  match v with
  | .str s => s
  | other => pyRepr other

/-! ### `CodeAnalyzer._parse_issue` (`analyzer.py` lines 41-67)

`issue_data.get(...)` needs a dict; `.lower()` needs a `str`; the `Issue`
pydantic model validates `str` fields and the `Optional` fields (pydantic's
lax mode also coerces an integer-shaped string for `Optional[int]`).  Any
failure is an exception, modelled as `Except.error`. -/

def charLower (c : Char) : Char :=
  if 'A' ≤ c && c ≤ 'Z' then Char.ofNat (c.toNat + 32) else c

/-- `str.lower()` (ASCII case folding; every string the claims touch is ASCII). -/
def strLower (s : String) : String :=
  String.mk (s.data.map charLower)

def pyLower : Json → Except String String
  | .str s => .ok (strLower s)
  | _ => .error "AttributeError: object has no attribute lower"

def asStr : Json → Except String String
  | .str s => .ok s
  | _ => .error "ValidationError: Input should be a valid string"

def asOptStr : Json → Except String (Option String)
  | .null => .ok none
  | .str s => .ok (some s)
  | _ => .error "ValidationError: Input should be a valid string"

def strToInt? (s : String) : Option Int :=
  match s.data with
  | [] => none
  | c :: r =>
    if c = '-' then
      if r.isEmpty || !(r.all Char.isDigit) then none
      else some (-(Int.ofNat (digitsToNat r)))
    else if (c :: r).all Char.isDigit then some (Int.ofNat (digitsToNat (c :: r)))
    else none

def asOptInt : Json → Except String (Option Int)
  | .null => .ok none
  | .num n => .ok (some n)
  | .str s =>
    match strToInt? s with
    | some n => .ok (some n)
    | none => .error "ValidationError: Input should be a valid integer"
  | _ => .error "ValidationError: Input should be a valid integer"

/-- `issue_data.get(k, default)`. -/
def getField (kvs : List (String × Json)) (k : String) (dflt : Json) : Json :=
  (pyGet kvs k).getD dflt

/-- The `Issue(...)` construction at the end of `_parse_issue`, including the
pydantic validation of every field that is not already an enum. -/
def mkIssue (kvs : List (String × Json)) (sev : Severity) (cat : IssueCategory) :
    Except String Issue :=
  match asStr (getField kvs "title" (.str "Unknown Issue")) with
  | .error e => .error e
  | .ok title =>
    match asStr (getField kvs "description" (.str "No description provided")) with
    | .error e => .error e
    | .ok descr =>
      match asOptInt (getField kvs "line_start" .null) with
      | .error e => .error e
      | .ok ls =>
        match asOptInt (getField kvs "line_end" .null) with
        | .error e => .error e
        | .ok le =>
          match asOptStr (getField kvs "code_snippet" .null) with
          | .error e => .error e
          | .ok snip =>
            match asOptStr (getField kvs "suggestion" .null) with
            | .error e => .error e
            | .ok sugg =>
              match asOptStr (getField kvs "suggested_code" .null) with
              | .error e => .error e
              | .ok suggCode => .ok ⟨title, descr, sev, cat, ls, le, snip, sugg, suggCode⟩

/-- `CodeAnalyzer._parse_issue`: lower-case the severity and category strings,
fall back to MEDIUM / BEST_PRACTICE on unknown values, then build the Issue. -/
def parseIssue (d : Json) : Except String Issue :=
  match d with
  | .obj kvs =>
    match pyLower (getField kvs "severity" (.str "medium")) with
    | .error e => .error e
    | .ok sevStr =>
      match pyLower (getField kvs "category" (.str "best_practice")) with
      | .error e => .error e
      | .ok catStr =>
        mkIssue kvs ((Severity.fromString? sevStr).getD .medium)
          ((IssueCategory.fromString? catStr).getD .best_practice)
  | _ => .error "AttributeError: object has no attribute get"

/-! ### `CodeAnalyzer.review_code` (`analyzer.py` lines 69-137)

The call to the LLM is external; `review_code` is modelled as a function of
the already-parsed response `result` (what `analyze_sync` returned) together
with the `code`, `filename` and `language` arguments.  Optional string
arguments follow Python truthiness: `None` and `""` both fall back. -/

/-- `filename or "code"`. -/
def fnOr (filename : Option String) : String :=
  match filename with
  | some f => if f = "" then "code" else f
  | none => "code"

/-- `if not language: language = detect_language(code, filename)`. -/
def langOf (code : String) (filename : Option String) (language : Option String) : String :=
  match language with
  | some l => if l = "" then detectLanguage code filename else l
  | none => detectLanguage code filename

/-- Python iteration over `result.get("issues", [])`: a list yields its
elements, a string its characters, a dict its keys; anything else raises. -/
def iterElems : Json → Except String (List Json)
  | .arr es => .ok es
  | .str s => .ok (s.data.map (fun c => Json.str (String.mk [c])))
  | .obj kvs => .ok (kvs.map (fun p => Json.str p.1))
  | _ => .error "TypeError: object is not iterable"

/-- The synthetic issue built when the parsed result carries an error marker
(`analyzer.py` lines 110-116). -/
def analysisErrorIssue (errVal : Json) : Issue :=
  ⟨"Analysis Error", "Failed to analyze code: " ++ pyStr errVal, .info, .documentation,
    none, none, none, some "Please try again or check your code format", none⟩

def reviewCode (result : Json) (code : String) (filename : Option String)
    (language : Option String) : Except String FileReview :=
  let lang := langOf code filename language
  let loc := slCount code
  match result with
  | .obj kvs =>
    match pyGet kvs "error" with
    | some errVal =>
      .ok ⟨fnOr filename, lang, loc, [analysisErrorIssue errVal],
        some "Analysis encountered an error"⟩
    | none =>
      match iterElems (getField kvs "issues" (.arr [])) with
      | .error e => .error e
      | .ok entries =>
        let issues := entries.filterMap (fun d => (parseIssue d).toOption)
        match asOptStr (getField kvs "summary" .null) with
        | .error e => .error e
        | .ok smry => .ok ⟨fnOr filename, lang, loc, issues, smry⟩
  | .str _ => .error "AttributeError: object has no attribute get"
  | .arr _ => .error "AttributeError: object has no attribute get"
  | _ => .error "TypeError: argument of this type is not iterable"

/-! ### `get_review_prompt` (`llm/prompts.py`) -/

def SYSTEM_PROMPT : String :=
  "You are CodeSense AI, an expert code reviewer. Analyze code for bugs, security issues, and best practices. Always respond with valid JSON only, no markdown."

/-- `CODE_REVIEW_PROMPT.format(code=code, language=language, filename=filename)`:
the template only references `\x7blanguage\x7d` and `\x7bcode\x7d`, and the doubled
braces around the requested JSON shape render as literal braces. -/
def codeReviewPromptFormatted (code language : String) : String :=
  "Review this " ++ language ++ " code:\n\x60\n" ++ code ++
    "\n\x60\n\nRespond ONLY with this JSON format:\n\x7b\"summary\": \"brief assessment\", \"quality_score\": 85, \"issues\": [\x7b\"title\": \"Issue name\", \"description\": \"Details\", \"severity\": \"critical|high|medium|low|info\", \"category\": \"security|bug|performance|style|best_practice\", \"line_start\": 1, \"suggestion\": \"How to fix\"\x7d]\x7d\n"

def get_review_prompt (code : String) (language : String) (_filename : String)
    (_review_type : String) : String × String :=
  (SYSTEM_PROMPT, codeReviewPromptFormatted code language)

/-! ### `Settings` (`utils/config.py`) and `GroqClient.__init__` (`llm/client.py`)

`Settings.groq_api_key` is `os.environ.get("GROQ_API_KEY", "")` — the empty
string when the variable is absent.  The Groq SDK constructor falls back to
the environment only when its `api_key` argument is `None`, and raises only
when the result is still `None`; an empty string passes.  The environment is
passed in explicitly. -/

def groq_model : String := "llama-3.3-70b-versatile"

/-- `Settings.groq_api_key` as a function of the `GROQ_API_KEY` variable. -/
def settingsGroqApiKey (env : Option String) : String := env.getD ""

structure GroqHandle where
  api_key : String

/-- The Groq SDK constructor `Groq(api_key=...)`. -/
def groqNew (api_key : Option String) (env : Option String) : Except String GroqHandle :=
  match api_key with
  | some k => .ok ⟨k⟩
  | none =>
    match env with
    | some k => .ok ⟨k⟩
    | none => .error "GroqError: The api_key client option must be set"

structure GroqClient where
  client : GroqHandle
  model : String

/-- `GroqClient.__init__` from `llm/client.py` lines 16-18:
`self.client = Groq(api_key=settings.groq_api_key); self.model = settings.groq_model`. -/
def groqClientInit (env : Option String) : Except String GroqClient :=
  match groqNew (some (settingsGroqApiKey env)) env with
  | .ok h => .ok ⟨h, groq_model⟩
  | .error e => .error e

/-! ### Small decidable helpers used by the theorems -/

/-- The characters at which CPython's scanner can start a value. -/
def jsonValueStart (c : Char) : Bool :=
  c = quoteChar || c = lbraceChar || c = lbrackChar || c = 'n' || c = 't' || c = 'f' ||
    c = 'N' || c = 'I' || c = '-' || c.isDigit

def isStrJ : Json → Bool
  | .str _ => true
  | _ => false

def isOkE {α : Type} : Except String α → Bool
  | .ok _ => true
  | .error _ => false

/-- The `Issue(...)` construction succeeds on the fields other than the two
enums: every field of the entry that `_parse_issue` forwards to pydantic is
well-typed (present with the right shape, or absent). -/
def restFieldsOk (kvs : List (String × Json)) : Bool :=
  isOkE (asStr (getField kvs "title" (Json.str "Unknown Issue"))) &&
  isOkE (asStr (getField kvs "description" (Json.str "No description provided"))) &&
  isOkE (asOptInt (getField kvs "line_start" Json.null)) &&
  isOkE (asOptInt (getField kvs "line_end" Json.null)) &&
  isOkE (asOptStr (getField kvs "code_snippet" Json.null)) &&
  isOkE (asOptStr (getField kvs "suggestion" Json.null)) &&
  isOkE (asOptStr (getField kvs "suggested_code" Json.null))

/-! ## Theorems for the claims -/

/-- Claim C1: for strictly valid JSON, `_parse_response` is claimed to return
the same parsed mapping bare or wrapped in a markdown fence.  On the code as
written the regex delimits the block with a SINGLE backtick, so wrapping in
triple-backtick markers extracts the empty text between the first two
backticks: the bare form parses, the wrapped form returns the error record. -/
theorem claim_C1 :
    parseResponse "\x7b\"summary\": \"ok\"\x7d" = Json.obj [("summary", Json.str "ok")] ∧
    parseResponse "\x60\x60\x60json\n\x7b\"summary\": \"ok\"\x7d\n\x60\x60\x60" =
      errorRecord "Expecting value: line 1 column 1 (char 0)" := by
  exact ⟨rfl, rfl⟩

/-- Claim C9 counterexample: `get_review_prompt` returns identical prompts for
review types `full` and `security` on the same code, language and filename,
contradicting the claim that the prompt text differs between review types. -/
theorem claim_C9_counterexample :
    get_review_prompt "x = 1" "python" "a.py" "full" =
      get_review_prompt "x = 1" "python" "a.py" "security" := rfl

/-- Claim C9 (amended): for fixed code, language and filename the prompt
builder returns the same system/user prompt pair for every `review_type`
value; the review type alters neither prompt framing nor scoring. -/
theorem claim_C9 (code language filename t1 t2 : String) :
    get_review_prompt code language filename t1 = get_review_prompt code language filename t2 :=
  rfl

/-- Claim C4 counterexample: with no `GROQ_API_KEY` in the environment,
`Settings.groq_api_key` defaults to the empty string and `GroqClient()`
construction SUCCEEDS (the SDK only rejects `None`), contradicting the claimed
construction-time `ConfigurationError`. -/
theorem claim_C4_counterexample :
    settingsGroqApiKey none = "" ∧
    groqClientInit none = Except.ok ⟨⟨""⟩, "llama-3.3-70b-versatile"⟩ :=
  ⟨rfl, rfl⟩

/-- Claim C4 (amended): `GroqClient.__init__` in `llm/client.py` never fails:
for every state of the `GROQ_API_KEY` environment variable, construction
succeeds and stores `Settings.groq_api_key` (the variable's value, or `""`)
and the configured model name. -/
theorem claim_C4 (env : Option String) :
    groqClientInit env = Except.ok ⟨⟨settingsGroqApiKey env⟩, groq_model⟩ := rfl

/-- Claim C2 counterexample: raw text with no fenced block, prose before the
first `\x7b` and prose after the last `\x7d`.  The claimed brace-span fallback
would recover `\x7b"a": 1\x7d`; the code has no such fallback, parses the whole
text, and returns the error record. -/
theorem claim_C2_counterexample :
    parseResponse "Here: \x7b\"a\": 1\x7d thanks" =
      errorRecord "Expecting value: line 1 column 1 (char 0)" := rfl

/-! ### Lemmas about `add_file_review`, the breakdown, and the score -/

theorem foldl_addFileReview_files (frs : List FileReview) (r0 : ReviewResult) :
    (frs.foldl addFileReview r0).files = r0.files ++ frs := by
  induction frs generalizing r0 with
  | nil => simp
  | cons fr frs ih => simp [List.foldl_cons, ih, addFileReview]

theorem foldl_addFileReview_total (frs : List FileReview) (r0 : ReviewResult) :
    (frs.foldl addFileReview r0).total_issues =
      r0.total_issues + (frs.map (fun f => f.issues.length)).sum := by
  induction frs generalizing r0 with
  | nil => simp
  | cons fr frs ih =>
    simp only [List.foldl_cons, ih, addFileReview, List.map_cons, List.sum_cons]
    omega

theorem bump_total (b : Breakdown) (s : Severity) :
    breakdownTotal (bumpBreakdown b s) = breakdownTotal b + 1 := by
  cases s <;> simp [bumpBreakdown, breakdownTotal] <;> omega

theorem foldIssues_total (issues : List Issue) (b : Breakdown) :
    breakdownTotal (issues.foldl (fun a i => bumpBreakdown a i.severity) b) =
      breakdownTotal b + issues.length := by
  induction issues generalizing b with
  | nil => simp
  | cons i issues ih => simp [List.foldl_cons, ih, bump_total]; omega

theorem foldFiles_total (files : List FileReview) (b : Breakdown) :
    breakdownTotal
        (files.foldl (fun acc f => f.issues.foldl (fun a i => bumpBreakdown a i.severity) acc) b) =
      breakdownTotal b + (files.map (fun f => f.issues.length)).sum := by
  induction files generalizing b with
  | nil => simp
  | cons f files ih => simp [List.foldl_cons, ih, foldIssues_total]; omega

/-- Claim C5: after any sequence of `add_file_review` calls starting from the
freshly constructed result, `total_issues` equals the sum of `len(issues)`
over the stored FileReviews, and the severity-breakdown counts sum to
`total_issues`.  Quantifying over every list of reviews covers the state
after every single operation. -/
theorem claim_C5 (idStr : String) (frs : List FileReview) :
    (buildResult idStr frs).total_issues =
      ((buildResult idStr frs).files.map (fun f => f.issues.length)).sum ∧
    breakdownTotal (severityBreakdown (buildResult idStr frs)) =
      (buildResult idStr frs).total_issues := by
  have hf := foldl_addFileReview_files frs (initReviewResult idStr)
  have ht := foldl_addFileReview_total frs (initReviewResult idStr)
  constructor
  · rw [buildResult, ht, hf]
    simp [initReviewResult]
  · rw [severityBreakdown, buildResult, hf, ht]
    simp only [initReviewResult, List.nil_append]
    rw [foldFiles_total]
    simp [zeroBreakdown, breakdownTotal]

theorem penalty_bump (b : Breakdown) (s : Severity) :
    penaltyOf b < penaltyOf (bumpBreakdown b s) := by
  cases s <;> simp [bumpBreakdown, penaltyOf]

/-- Claim C7: the quality score always lies in [0, 100], and adding one more
issue of any severity (as one more file review carrying exactly that issue)
never increases the score. -/
theorem claim_C7 :
    (∀ r : ReviewResult, 0 ≤ calculateScore r ∧ calculateScore r ≤ 100) ∧
    (∀ (idStr : String) (frs : List FileReview) (fn lg : String) (loc : Nat)
      (i : Issue) (smry : Option String),
      calculateScore (buildResult idStr (frs ++ [⟨fn, lg, loc, [i], smry⟩])) ≤
        calculateScore (buildResult idStr frs)) := by
  constructor
  · intro r
    unfold calculateScore
    split
    · norm_num
    · refine ⟨le_max_left 0 _, max_le (by norm_num) ?_⟩
      have : (0 : Int) ≤ (penaltyOf (severityBreakdown r) : Int) := Int.ofNat_nonneg _
      omega
  · intro idStr frs fn lg loc i smry
    set fr : FileReview := ⟨fn, lg, loc, [i], smry⟩ with hfr
    have hbuild : buildResult idStr (frs ++ [fr]) = addFileReview (buildResult idStr frs) fr := by
      simp [buildResult, List.foldl_append]
    set r := buildResult idStr frs with hr
    have htot : (addFileReview r fr).total_issues = r.total_issues + 1 := by
      simp [addFileReview, hfr]
    have hbd : severityBreakdown (addFileReview r fr) =
        bumpBreakdown (severityBreakdown r) i.severity := by
      simp [severityBreakdown, addFileReview, List.foldl_append, hfr]
    rw [hbuild]
    unfold calculateScore
    rw [htot, hbd]
    have hpen := penalty_bump (severityBreakdown r) i.severity
    have hnz : ¬(r.total_issues + 1 = 0) := by omega
    rw [if_neg hnz]
    split
    · refine max_le (by norm_num) ?_
      have : (0 : Int) ≤ (penaltyOf (bumpBreakdown (severityBreakdown r) i.severity) : Int) :=
        Int.ofNat_nonneg _
      omega
    · refine max_le_max (le_refl 0) ?_
      have : (penaltyOf (severityBreakdown r) : Int) ≤
          (penaltyOf (bumpBreakdown (severityBreakdown r) i.severity) : Int) := by
        exact_mod_cast Nat.le_of_lt hpen
      omega

/-- Claim C8: whenever the parsed LLM result carries the error marker (an
`error` key in the result dict), `review_code` does not raise and returns a
FileReview holding exactly one synthetic issue of severity INFO and category
DOCUMENTATION whose description reports the failure text. -/
theorem claim_C8 (kvs : List (String × Json)) (errVal : Json) (code : String)
    (filename language : Option String)
    (h : pyGet kvs "error" = some errVal) :
    reviewCode (Json.obj kvs) code filename language =
      Except.ok ⟨fnOr filename, langOf code filename language, slCount code,
        [analysisErrorIssue errVal], some "Analysis encountered an error"⟩ ∧
    [analysisErrorIssue errVal].length = 1 ∧
    (analysisErrorIssue errVal).severity = Severity.info ∧
    (analysisErrorIssue errVal).category = IssueCategory.documentation ∧
    (analysisErrorIssue errVal).description = "Failed to analyze code: " ++ pyStr errVal := by
  refine ⟨?_, rfl, rfl, rfl, rfl⟩
  simp [reviewCode, h]

/-- Witness for C8 at a concrete error record. -/
theorem claim_C8_witness :
    reviewCode (Json.obj [("error", Json.str "boom")]) "x = 1" (some "a.py") none =
      Except.ok ⟨"a.py", "python", 1,
        [⟨"Analysis Error", "Failed to analyze code: boom", Severity.info,
          IssueCategory.documentation, none, none, none,
          some "Please try again or check your code format", none⟩],
        some "Analysis encountered an error"⟩ :=
  (claim_C8 [("error", Json.str "boom")] (Json.str "boom") "x = 1" (some "a.py") none rfl).1

/-- Claim C6 counterexample: the severity string `CRITICAL` and the category
string `STYLE` lie outside the enum value sets `\x7bcritical, high, medium, low,
info\x7d` / `\x7bsecurity, ..., documentation\x7d` (the enum constructors accept only
the exact lowercase values), yet `_parse_issue` lowercases first and so yields
CRITICAL / STYLE, not the claimed MEDIUM / BEST_PRACTICE defaults. -/
theorem claim_C6_counterexample :
    Severity.fromString? "CRITICAL" = none ∧
    IssueCategory.fromString? "STYLE" = none ∧
    parseIssue (Json.obj [("severity", Json.str "CRITICAL"), ("category", Json.str "STYLE")]) =
      Except.ok ⟨"Unknown Issue", "No description provided", Severity.critical,
        IssueCategory.style, none, none, none, none, none⟩ ∧
    Severity.critical ≠ Severity.medium ∧
    IssueCategory.style ≠ IssueCategory.best_practice := by
  refine ⟨rfl, rfl, rfl, ?_, ?_⟩ <;> decide

theorem isOkE_exists {α : Type} {e : Except String α} (h : isOkE e = true) :
    ∃ a, e = Except.ok a := by
  cases e with
  | ok a => exact ⟨a, rfl⟩
  | error m => simp [isOkE] at h

/-- Claim C6 (amended): for an issue entry whose severity and category fields
are strings with LOWERCASED form outside the known enum values, and whose
remaining fields are well-typed, `_parse_issue` raises nothing and yields the
defaults MEDIUM and BEST_PRACTICE. -/
theorem claim_C6 (kvs : List (String × Json)) (s t : String)
    (hs : pyGet kvs "severity" = some (Json.str s))
    (hs2 : Severity.fromString? (strLower s) = none)
    (ht : pyGet kvs "category" = some (Json.str t))
    (ht2 : IssueCategory.fromString? (strLower t) = none)
    (hrest : restFieldsOk kvs = true) :
    ∃ i : Issue, parseIssue (Json.obj kvs) = Except.ok i ∧
      i.severity = Severity.medium ∧ i.category = IssueCategory.best_practice := by
  simp only [restFieldsOk, Bool.and_eq_true] at hrest
  obtain ⟨⟨⟨⟨⟨⟨h1, h2⟩, h3⟩, h4⟩, h5⟩, h6⟩, h7⟩ := hrest
  obtain ⟨title, htitle⟩ := isOkE_exists h1
  obtain ⟨descr, hdescr⟩ := isOkE_exists h2
  obtain ⟨ls, hls⟩ := isOkE_exists h3
  obtain ⟨le, hle⟩ := isOkE_exists h4
  obtain ⟨snip, hsnip⟩ := isOkE_exists h5
  obtain ⟨sugg, hsugg⟩ := isOkE_exists h6
  obtain ⟨sc, hsc⟩ := isOkE_exists h7
  refine ⟨⟨title, descr, .medium, .best_practice, ls, le, snip, sugg, sc⟩, ?_, rfl, rfl⟩
  simp only [getField] at htitle hdescr hls hle hsnip hsugg hsc
  simp only [parseIssue, getField, hs, ht, Option.getD_some, pyLower, hs2, ht2,
    Option.getD_none, mkIssue, htitle, hdescr, hls, hle, hsnip, hsugg, hsc]

/-- Witness for the amended C6 at a concrete malformed entry. -/
theorem claim_C6_witness :
    ∃ i : Issue,
      parseIssue (Json.obj [("severity", Json.str "zzz"), ("category", Json.str "yyy")]) =
        Except.ok i ∧
      i.severity = Severity.medium ∧ i.category = IssueCategory.best_practice :=
  claim_C6 [("severity", Json.str "zzz"), ("category", Json.str "yyy")] "zzz" "yyy"
    rfl rfl rfl rfl rfl

theorem pyLower_err (v : Json) (h : isStrJ v = false) :
    pyLower v = Except.error "AttributeError: object has no attribute lower" := by
  cases v <;> simp [pyLower, isStrJ] at h ⊢

theorem parseIssue_bad (dkvs : List (String × Json))
    (hbad : (∃ v, pyGet dkvs "severity" = some v ∧ isStrJ v = false) ∨
            (∃ w, pyGet dkvs "category" = some w ∧ isStrJ w = false)) :
    (parseIssue (Json.obj dkvs)).toOption = none := by
  rcases hbad with ⟨v, hv, hnv⟩ | ⟨w, hw, hnw⟩
  · simp [parseIssue, getField, hv, pyLower_err v hnv, Except.toOption]
  · have hcat : pyLower (getField dkvs "category" (Json.str "best_practice")) =
        Except.error "AttributeError: object has no attribute lower" := by
      simp only [getField, hw, Option.getD_some]
      exact pyLower_err w hnw
    cases hpl : pyLower (getField dkvs "severity" (Json.str "medium")) with
    | error e => simp [parseIssue, hpl, Except.toOption]
    | ok sevStr => simp [parseIssue, hpl, hcat, Except.toOption]

/-- Claim C10: an issue entry whose severity (or category) field is present
with a non-string value is silently dropped by `review_code`: the review of a
result carrying that entry equals the review of the same result without it —
nothing is defaulted, nothing is raised. -/
theorem claim_C10 (kvs kvs2 : List (String × Json)) (pre post : List Json)
    (dkvs : List (String × Json)) (code : String) (filename language : Option String)
    (hbad : (∃ v, pyGet dkvs "severity" = some v ∧ isStrJ v = false) ∨
            (∃ w, pyGet dkvs "category" = some w ∧ isStrJ w = false))
    (he : pyGet kvs "error" = none) (he2 : pyGet kvs2 "error" = none)
    (hi : pyGet kvs "issues" = some (Json.arr (pre ++ Json.obj dkvs :: post)))
    (hi2 : pyGet kvs2 "issues" = some (Json.arr (pre ++ post)))
    (hsum : pyGet kvs "summary" = pyGet kvs2 "summary") :
    reviewCode (Json.obj kvs) code filename language =
      reviewCode (Json.obj kvs2) code filename language := by
  have hdrop := parseIssue_bad dkvs hbad
  simp only [reviewCode, he, he2, getField, hi, hi2, Option.getD_some, iterElems,
    List.filterMap_append, List.filterMap_cons, hdrop, hsum]

/-- Witness for C10: a result whose only issue entry has a numeric severity
reviews identically to the result with an empty issue list. -/
theorem claim_C10_witness :
    reviewCode (Json.obj [("issues", Json.arr [Json.obj [("severity", Json.num 5)]])])
        "x = 1" none none =
      reviewCode (Json.obj [("issues", Json.arr [])]) "x = 1" none none :=
  claim_C10 [("issues", Json.arr [Json.obj [("severity", Json.num 5)]])]
    [("issues", Json.arr [])] [] [] [("severity", Json.num 5)] "x = 1" none none
    (Or.inl ⟨Json.num 5, rfl, rfl⟩) rfl rfl rfl rfl rfl

/-! ### Head-preservation lemmas for the no-fence pipeline -/

theorem fenceGroup_none (cs : List Char) (h : cs.count backtickChar < 2) :
    fenceGroup cs = none := by
  simp only [fenceGroup]
  rw [if_neg]
  omega

theorem dropWhile_append_single (p : Char → Bool) (xs : List Char) (c : Char)
    (hc : p c = false) : (xs ++ [c]).dropWhile p = xs.dropWhile p ++ [c] := by
  induction xs with
  | nil => simp [List.dropWhile_cons, hc]
  | cons x xs ih =>
    by_cases hx : p x
    · simp [List.dropWhile_cons, hx, ih]
    · simp [List.dropWhile_cons, hx]

theorem pyStrip_cons (c : Char) (t : List Char) (hc : pyWsB c = false) :
    pyStrip (c :: t) = c :: (t.reverse.dropWhile pyWsB).reverse := by
  unfold pyStrip
  rw [List.dropWhile_cons, if_neg (by simp [hc])]
  rw [List.reverse_cons, dropWhile_append_single pyWsB t.reverse c hc]
  simp

theorem subTrailingComma_cons (close c : Char) (ts : List Char) (hc : ¬c = ',') :
    subTrailingComma close (c :: ts) = c :: subTrailingCommaAux close ts.length ts := by
  simp only [subTrailingComma, List.length_cons]
  simp [subTrailingCommaAux, hc]

theorem tryNumber_none (c : Char) (r : List Char) (hm : ¬c = '-') (hd : c.isDigit = false) :
    tryNumber (c :: r) = none := by
  simp [tryNumber, hm, hd]

theorem jsonScan_head_fail (fuel : Nat) (c : Char) (t : List Char)
    (hstart : jsonValueStart c = false) :
    jsonScan (fuel + 1) ScanMode.value (c :: t) =
      Except.error ("Expecting value", t.length + 1) := by
  simp only [jsonValueStart, Bool.or_eq_false_iff, decide_eq_false_iff_not] at hstart
  obtain ⟨⟨⟨⟨⟨⟨⟨⟨⟨hq, hb⟩, hk⟩, hn⟩, ht'⟩, hf⟩, hN⟩, hI⟩, hm⟩, hd⟩ := hstart
  simp [jsonScan, hq, hb, hk, hn, ht', hf, hN, hI, hm, tryNumber_none c t hm hd]

theorem jsonWsB_eq_false (c : Char) (h : pyWsB c = false) : jsonWsB c = false := by
  simp only [pyWsB, Bool.or_eq_false_iff, decide_eq_false_iff_not] at h
  simp only [jsonWsB, Bool.or_eq_false_iff, decide_eq_false_iff_not]
  exact ⟨⟨⟨h.1.1.1.1.1, h.1.1.1.1.2⟩, h.1.1.1.2⟩, h.1.1.2⟩

theorem renderErr_zero (doc : List Char) (msg : String) :
    renderErr doc 0 msg = msg ++ ": line 1 column 1 (char 0)" := by
  simp only [renderErr, List.take_zero]
  have h1 : toString (1 + List.count '\n' ([] : List Char)) = "1" := rfl
  have h2 : toString (((0 : Nat) : Int) - lastNlIdx []) = "1" := rfl
  have h3 : toString (0 : Nat) = "0" := rfl
  rw [h1, h2, h3]
  simp [String.append_assoc]

theorem jsonLoadsList_head_fail (c : Char) (t : List Char)
    (hws : jsonWsB c = false) (hstart : jsonValueStart c = false) :
    jsonLoadsList (c :: t) = Except.error "Expecting value: line 1 column 1 (char 0)" := by
  unfold jsonLoadsList
  rw [List.dropWhile_cons, if_neg (by simp [hws])]
  rw [show ((c :: t).length * 4 + 15).succ = ((c :: t).length * 4 + 15) + 1 from rfl]
  rw [jsonScan_head_fail _ c t hstart]
  simp only [List.length_cons, Nat.sub_self]
  rw [renderErr_zero]
  rfl

/-- Claim C2 (amended): `_parse_response` has no brace-span fallback.  With no
fenced block present (fewer than two backticks), the WHOLE stripped and
comma-repaired text is handed to `json.loads`; if the text begins with a prose
character (not whitespace, not a comma, and not a character that can start a
JSON value), the parse fails at position 0 and the error record is returned —
whatever braces appear further inside. -/
theorem claim_C2 (s : String) (c : Char)
    (hcount : s.data.count backtickChar < 2)
    (hhead : s.data.head? = some c)
    (hws : pyWsB c = false)
    (hcomma : ¬c = ',')
    (hstart : jsonValueStart c = false) :
    parseResponse s = errorRecord "Expecting value: line 1 column 1 (char 0)" := by
  obtain ⟨t, hdata⟩ : ∃ t, s.data = c :: t := by
    cases hs : s.data with
    | nil => rw [hs] at hhead; simp at hhead
    | cons a t =>
      rw [hs] at hhead
      simp only [List.head?_cons, Option.some.injEq] at hhead
      exact ⟨t, by rw [hhead]⟩
  have hfence : fenceGroup s.data = none := fenceGroup_none _ hcount
  set ts1 : List Char := (t.reverse.dropWhile pyWsB).reverse with hts1
  have hstrip : pyStrip s.data = c :: ts1 := by
    rw [hdata]; exact pyStrip_cons c t hws
  set ts2 : List Char := subTrailingCommaAux rbraceChar ts1.length ts1 with hts2
  have h1 : subTrailingComma rbraceChar (pyStrip s.data) = c :: ts2 := by
    rw [hstrip]; exact subTrailingComma_cons _ c _ hcomma
  set u : List Char := subTrailingCommaAux rbrackChar ts2.length ts2 with hu2
  have h2 : subTrailingComma rbrackChar (c :: ts2) = c :: u :=
    subTrailingComma_cons _ c _ hcomma
  have hcand : candidateOf s = c :: u := by
    simp only [candidateOf, hfence]
    rw [h1, h2]
  have hload := jsonLoadsList_head_fail c u (jsonWsB_eq_false c hws) hstart
  simp [parseResponse, hcand, hload]

/-- Witness for the amended C2: prose-led text with an embedded JSON object
still produces the error record. -/
theorem claim_C2_witness :
    parseResponse "Here: \x7b\"a\": 2\x7d done" =
      errorRecord "Expecting value: line 1 column 1 (char 0)" :=
  claim_C2 "Here: \x7b\"a\": 2\x7d done" 'H' (by decide) rfl rfl (by decide) rfl

set_option maxRecDepth 20000 in
/-- Claim C3 counterexample: on a 600-character unparsable input the error
record is `\x7bsummary, issues, error\x7d` only — its string values are the fixed
summary and the parse message, and NEITHER equals the first 500 characters of
the unparsed candidate (which is the input itself, as the fourth conjunct
shows); no `raw_response` truncation exists in this record. -/
theorem claim_C3_counterexample :
    parseResponse (String.mk (List.replicate 600 'x')) =
      errorRecord "Expecting value: line 1 column 1 (char 0)" ∧
    candidateOf (String.mk (List.replicate 600 'x')) = List.replicate 600 'x' ∧
    "Analysis completed" ≠ String.mk ((List.replicate 600 'x').take 500) ∧
    "Expecting value: line 1 column 1 (char 0)" ≠
      String.mk ((List.replicate 600 'x').take 500) := by
  refine ⟨rfl, rfl, ?_, ?_⟩ <;> decide

/-- Claim C3 (amended): when parsing fails even after the repairs,
`_parse_response` does not raise: it returns the error record with the fixed
summary `Analysis completed`, an empty issue list, and `str(e)` under the key
`error` — and that record has no `raw_response` key carrying the first 500
characters of the candidate (that field exists only in the superseded
`github/client.py` parser). -/
theorem claim_C3 (s m : String) (h : jsonLoadsList (candidateOf s) = Except.error m) :
    parseResponse s = Json.obj [("summary", Json.str "Analysis completed"),
      ("issues", Json.arr []), ("error", Json.str m)] ∧
    pyGet [("summary", Json.str "Analysis completed"), ("issues", Json.arr []),
      ("error", Json.str m)] "raw_response" = none := by
  constructor
  · simp [parseResponse, h, errorRecord]
  · rfl

/-- Witness for the amended C3 at a concrete unparsable input. -/
theorem claim_C3_witness :
    parseResponse "I cannot review this." =
      Json.obj [("summary", Json.str "Analysis completed"), ("issues", Json.arr []),
        ("error", Json.str "Expecting value: line 1 column 1 (char 0)")] ∧
    pyGet [("summary", Json.str "Analysis completed"), ("issues", Json.arr []),
      ("error", Json.str "Expecting value: line 1 column 1 (char 0)")] "raw_response" = none :=
  claim_C3 "I cannot review this." "Expecting value: line 1 column 1 (char 0)" rfl
